import Mathlib

/-!
Verification development for the rule-based resume analysis core
(`SimpleMLResumeAnalyzer`).  Raw text is modelled as a list of characters;
the external collaborators used by preprocessing (word tokenizer, stopword
list, stemmer) are not part of the analyzed code and are modelled as an
explicit environment parameter, with one concrete instance built from the
design document.  All other definitions are direct translations of the
source functions.
-/

namespace JobList

set_option maxRecDepth 100000

/-- Raw text and tokens are lists of characters. -/
abbrev Str := List Char

/-- Characters treated as whitespace by the JavaScript runtime
(`\s` character class and `String.prototype.trim`). -/
def isJsSpace (c : Char) : Bool :=
  c = ' ' || c = '\t' || c = '\n' || c = '\r' || c.val = 11 || c.val = 12 ||
  c.val = 0xa0 || c.val = 0x1680 || (0x2000 ≤ c.val && c.val ≤ 0x200a) ||
  c.val = 0x2028 || c.val = 0x2029 || c.val = 0x202f || c.val = 0x205f ||
  c.val = 0x3000 || c.val = 0xfeff

/-- Model of `String.prototype.trim`: strip whitespace from both ends. -/
def jsTrim (s : Str) : Str :=
  ((s.dropWhile isJsSpace).reverse.dropWhile isJsSpace).reverse

/-- Model of `String.prototype.toLowerCase` (ASCII letters). -/
def toLowerStr (s : Str) : Str := s.map Char.toLower

/-- Model of `String.prototype.includes`: `includes hay needle` is true when
`needle` occurs contiguously inside `hay`. -/
def includes : Str → Str → Bool
  | [], needle => needle.isEmpty
  | c :: rest, needle => needle.isPrefixOf (c :: rest) || includes rest needle

/-- Characters kept by the preprocessing filter
`replace(/[^a-zA-Z0-9\s\-\/\+\#\.\@\_\(\)]/g, ' ')`. -/
def isAllowedChar (c : Char) : Bool :=
  c.isAlpha || c.isDigit || isJsSpace c ||
  c = '-' || c = '/' || c = '+' || c = '#' || c = '.' || c = '@' ||
  c = '_' || c = '(' || c = ')'

/-- The character-level replacement step of `preprocessText`: every character
outside the allow-list becomes a space. -/
def charFilter (s : Str) : Str :=
  s.map (fun c => if isAllowedChar c then c else ' ')

/-- The external text services consumed by `preprocessText`: the `natural`
word tokenizer, the `stopword` filter and the Porter stemmer.  They are
third-party collaborators, so the pipeline is parameterized over them. -/
structure TextEnv where
  tokenize : Str → List Str
  removeStopwords : List Str → List Str
  stem : Str → Str

/-- Translation of `preprocessText`: lower-case, filter characters,
tokenize, remove stopwords, stem. -/
def preprocessText (env : TextEnv) (text : Str) : List Str :=
  (env.removeStopwords (env.tokenize (charFilter (toLowerStr text)))).map env.stem

/-- Translation of `keyword.toLowerCase().replace(/\s+/g, '')`. -/
def cleanKeyword (kw : Str) : Str :=
  (toLowerStr kw).filter (fun c => !(isJsSpace c))

/-- The bidirectional substring match used for taxonomy keywords:
`token.includes(cleanKeyword) || cleanKeyword.includes(token)`. -/
def bidirMatch (token kw : Str) : Bool :=
  includes token (cleanKeyword kw) || includes (cleanKeyword kw) token

/-- Number of tokens containing one of the given patterns
(one-directional containment, as in the section scorers). -/
def mentionCount (tokens : List Str) (pats : List Str) : Nat :=
  (tokens.filter (fun t => pats.any (fun p => includes t p))).length

/-- Number of keywords of a list that have at least one bidirectionally
matching token (`keywords.filter(kw => tokens.some(...)).length`). -/
def matchCount (tokens : List Str) (kws : List Str) : Nat :=
  (kws.filter (fun kw => tokens.any (fun t => bidirMatch t kw))).length

/-- Number of tokens bidirectionally matching some keyword of a list
(`tokens.filter(token => keywords.some(...)).length`). -/
def tokenMatchCount (tokens : List Str) (kws : List Str) : Nat :=
  (tokens.filter (fun t => kws.any (fun kw => bidirMatch t kw))).length

/-- Convert a list of string literals to character lists. -/
def strs (l : List String) : List Str := l.map String.data

/-- The `industryKeywords` table of the analyzer's constructor. -/
def industryKeywords : List (Str × List Str) :=
  [("frontend".data, strs ["javascript", "react", "vue", "angular", "html", "css", "typescript", "nodejs", "webpack", "bootstrap"]),
   ("backend".data, strs ["python", "java", "nodejs", "express", "mongodb", "postgresql", "api", "rest", "microservices", "spring"]),
   ("data_science".data, strs ["python", "r", "sql", "pandas", "numpy", "machine learning", "tensorflow", "scikit-learn", "data analysis"]),
   ("devops".data, strs ["docker", "kubernetes", "aws", "jenkins", "ci/cd", "terraform", "ansible", "linux", "bash"]),
   ("mobile".data, strs ["react native", "flutter", "swift", "kotlin", "android", "ios", "mobile development"])]

/-- The `skillCategories` table of the analyzer's constructor. -/
def skillCategories : List (Str × List Str) :=
  [("programming_languages".data, strs ["javascript", "python", "java", "c++", "c#", "go", "rust", "php"]),
   ("frameworks".data, strs ["react", "vue", "angular", "express", "django", "spring", "laravel"]),
   ("databases".data, strs ["mysql", "postgresql", "mongodb", "redis", "oracle", "sql server"]),
   ("tools".data, strs ["git", "docker", "kubernetes", "aws", "azure", "jenkins", "webpack"]),
   ("soft_skills".data, strs ["communication", "leadership", "teamwork", "problem solving", "agile"])]

/-- Fuel-driven count of non-overlapping regex matches, scanning left to
right: on a match the scan advances past it, otherwise by one character
(the semantics of `text.match(re, 'g').length`).  `matchAt` returns the
length of a match starting at the current position. -/
def countMatchesAux (matchAt : Str → Option Nat) : Nat → Str → Nat
  | 0, _ => 0
  | _, [] => 0
  | fuel + 1, c :: rest =>
    match matchAt (c :: rest) with
    | some n =>
      if n = 0 then 0
      else 1 + countMatchesAux matchAt fuel ((c :: rest).drop n)
    | none => countMatchesAux matchAt fuel rest

/-- Count the matches of a pattern in a string. -/
def countMatches (matchAt : Str → Option Nat) (s : Str) : Nat :=
  countMatchesAux matchAt s.length s

/-- Matcher for `/\d+\s*(?:year|yr)s?|month|present|current/gi` applied to
lower-cased text: returns the length of the match at this position. -/
def timeMatchAt (s : Str) : Option Nat :=
  let ds := s.takeWhile Char.isDigit
  let digitAlt : Option Nat :=
    if ds.isEmpty then none
    else
      let r1 := s.drop ds.length
      let sp := r1.takeWhile isJsSpace
      let r2 := r1.drop sp.length
      if List.isPrefixOf ("year".data) r2 then
        if List.isPrefixOf ("s".data) (r2.drop 4) then some (ds.length + sp.length + 5)
        else some (ds.length + sp.length + 4)
      else if List.isPrefixOf ("yr".data) r2 then
        if List.isPrefixOf ("s".data) (r2.drop 2) then some (ds.length + sp.length + 3)
        else some (ds.length + sp.length + 2)
      else none
  match digitAlt with
  | some n => some n
  | none =>
    if List.isPrefixOf ("month".data) s then some 5
    else if List.isPrefixOf ("present".data) s then some 7
    else if List.isPrefixOf ("current".data) s then some 7
    else none

/-- Matcher for `/\d+[%kmg]|increase|decrease|improve|reduce/gi` applied to
lower-cased text. -/
def quantResultMatchAt (s : Str) : Option Nat :=
  let ds := s.takeWhile Char.isDigit
  let digitAlt : Option Nat :=
    if ds.isEmpty then none
    else
      match (s.drop ds.length).head? with
      | some c =>
        if c = '%' || c = 'k' || c = 'm' || c = 'g' then some (ds.length + 1) else none
      | none => none
  match digitAlt with
  | some n => some n
  | none =>
    if List.isPrefixOf ("increase".data) s then some 8
    else if List.isPrefixOf ("decrease".data) s then some 8
    else if List.isPrefixOf ("improve".data) s then some 7
    else if List.isPrefixOf ("reduce".data) s then some 6
    else none

/-- Count of `/[A-Z][a-z]+/g` matches: an upper-case letter followed by a
non-empty run of lower-case letters, non-overlapping. -/
def capWordsAux : Nat → Str → Nat
  | 0, _ => 0
  | _, [] => 0
  | fuel + 1, c :: rest =>
    if c.isUpper then
      let ls := rest.takeWhile Char.isLower
      if ls.isEmpty then capWordsAux fuel rest
      else 1 + capWordsAux fuel (rest.drop ls.length)
    else capWordsAux fuel rest

/-- Count of capitalized words in a string. -/
def capWords (s : Str) : Nat := capWordsAux s.length s

/-- Number of occurrences of a single character. -/
def countChar (c : Char) (s : Str) : Nat := (s.filter (fun d => d = c)).length

/-- Translation of `scoreSkillsSection`. -/
def scoreSkillsSection (env : TextEnv) (text : Str) : Nat :=
  let tokens := preprocessText env text
  let skillMentions := mentionCount tokens (strs ["skill", "competency", "proficiency", "expertise", "knowledge", "ability"])
  let technicalScore := skillCategories.foldl (fun acc p => max acc (tokenMatchCount tokens p.2)) 0
  min 100 (skillMentions * 8 + technicalScore * 6)

/-- Translation of `scoreExperienceSection`. -/
def scoreExperienceSection (env : TextEnv) (text : Str) : Nat :=
  let tokens := preprocessText env text
  let experienceMentions := mentionCount tokens (strs ["experience", "work", "position", "role", "responsibility", "duty", "task"])
  let timeMentions := countMatches timeMatchAt (toLowerStr text)
  min 100 (experienceMentions * 10 + timeMentions * 5)

/-- Translation of `scoreEducationSection`. -/
def scoreEducationSection (env : TextEnv) (text : Str) : Nat :=
  let tokens := preprocessText env text
  let educationMentions := mentionCount tokens (strs ["education", "degree", "university", "college", "bachelor", "master", "phd", "bs", "ms", "ba", "ma"])
  min 100 (educationMentions * 15)

/-- Translation of `scoreProjectsSection`. -/
def scoreProjectsSection (env : TextEnv) (text : Str) : Nat :=
  let tokens := preprocessText env text
  let projectMentions := mentionCount tokens (strs ["project", "portfolio", "built", "developed", "created", "designed", "implemented"])
  min 100 (projectMentions * 20)

/-- Translation of `scoreFormatting` (four structural checks on raw text). -/
def scoreFormatting (text : Str) : Nat :=
  let structureScore := if 10 < countChar '\n' text then 25 else 10
  let bulletScore := if 5 < (text.filter (fun c => c = '-' || c = '•' || c = '*')).length then 25 else 10
  let sectionScore := if 3 < countChar ':' text then 20 else 5
  let capitalScore := if 20 < capWords text then 20 else 10
  min 100 (structureScore + bulletScore + sectionScore + capitalScore)

/-- Translation of `scoreAchievementsSection`. -/
def scoreAchievementsSection (env : TextEnv) (text : Str) : Nat :=
  let tokens := preprocessText env text
  let achievementMentions := mentionCount tokens (strs ["achieve", "award", "recognition", "certification", "certified", "accomplishment", "success"])
  let quantifiedScore := countMatches quantResultMatchAt (toLowerStr text) * 5
  min 100 (achievementMentions * 10 + quantifiedScore)

/-- The six section scores. -/
structure Sections where
  skills : Nat
  experience : Nat
  education : Nat
  projects : Nat
  formatting : Nat
  achievements : Nat
deriving DecidableEq

/-- Translation of `scoreSections`. -/
def scoreSections (env : TextEnv) (text : Str) : Sections :=
  { skills := scoreSkillsSection env text
    experience := scoreExperienceSection env text
    education := scoreEducationSection env text
    projects := scoreProjectsSection env text
    formatting := scoreFormatting text
    achievements := scoreAchievementsSection env text }

/-- Model of `Math.round` on a non-negative rational. -/
def natRound (q : ℚ) : Nat := (Int.floor (q + 1/2)).toNat

/-- The fixed-weight combination of the six section scores computed by
`analyzeResume` before rounding. -/
def overallScoreQ (s : Sections) : ℚ :=
  (s.skills : ℚ) * (25/100) + (s.experience : ℚ) * (25/100) +
  (s.education : ℚ) * (15/100) + (s.projects : ℚ) * (15/100) +
  (s.achievements : ℚ) * (10/100) + (s.formatting : ℚ) * (10/100)

/-- A recommendation record. -/
structure Recommendation where
  problem : Str
  solution : Str
  priority : Str
  expectedImpact : Str
deriving DecidableEq

/-- The quantification verbs of the `hasQuantification` regex. -/
def quantVerbs : List Str :=
  strs ["increase", "decrease", "improve", "reduce", "save", "generate"]

/-- Translation of `/[\d+%$]|increase|decrease|improve|reduce|save|generate/i.test(resumeText)`:
note that the character class contains a literal plus sign. -/
def hasQuantification (text : Str) : Bool :=
  text.any (fun c => c.isDigit || c = '+' || c = '%' || c = '$') ||
  quantVerbs.any (fun v => includes (toLowerStr text) v)

/-- The recommendation pushed when no quantification signal is found. -/
def lacksQuantRec : Recommendation :=
  { problem := ("Resume lacks quantified achievements").data
    solution := ("Add specific metrics to describe your accomplishments (e.g., \x27Increased sales by 25%\x27, \x27Managed team of 5 developers\x27, \x27Reduced processing time by 40%\x27)").data
    priority := ("High").data
    expectedImpact := ("Makes your contributions measurable and more impactful to employers").data }

/-- The recommendation naming missing industry keywords. -/
def missingKwRec (pool : List Str) : Recommendation :=
  { problem := ("Missing industry-standard keywords").data
    solution := ("Include relevant technical terms like: ").data ++ List.intercalate ((", ").data) (pool.take 5)
    priority := ("Medium").data
    expectedImpact := ("Improves ATS compatibility and keyword matching").data }

/-- The low-experience-score recommendation. -/
def expSectionRec : Recommendation :=
  { problem := ("Experience section needs improvement").data
    solution := ("Add more detailed descriptions of your roles, responsibilities, and achievements with specific examples").data
    priority := ("High").data
    expectedImpact := ("Better demonstrates your professional value and career progression").data }

/-- The low-skills-score recommendation. -/
def skillsSectionRec : Recommendation :=
  { problem := ("Skills section is underdeveloped").data
    solution := ("List specific technologies, tools, methodologies, and frameworks you\x27re proficient in with proficiency levels").data
    priority := ("High").data
    expectedImpact := ("Helps recruiters quickly assess your technical fit for positions").data }

/-- The low-achievements-score recommendation. -/
def achSectionRec : Recommendation :=
  { problem := ("Limited quantified achievements").data
    solution := ("Include specific metrics and results from your work (e.g., \x27Delivered project 2 weeks ahead of schedule\x27, \x27Improved system performance by 35%\x27)").data
    priority := ("Medium").data
    expectedImpact := ("Demonstrates measurable impact and results-oriented mindset").data }

/-- The low-formatting-score recommendation. -/
def fmtSectionRec : Recommendation :=
  { problem := ("Formatting and structure need improvement").data
    solution := ("Use consistent formatting, bullet points, clear section headings, and professional layout").data
    priority := ("Medium").data
    expectedImpact := ("Improves readability and makes your resume more scanner-friendly").data }

/-- Translation of `generateRecommendations`: fixed generation order, then
truncation to 6. -/
def generateRecommendations (env : TextEnv) (text : Str) (s : Sections) : List Recommendation :=
  let tokens := preprocessText env text
  let missingKeywords :=
    industryKeywords.foldl
      (fun acc p => if matchCount tokens p.2 < 2 then acc ++ p.2.take 3 else acc) []
  ((if hasQuantification text then [] else [lacksQuantRec]) ++
   (if missingKeywords.isEmpty then [] else [missingKwRec missingKeywords]) ++
   (if s.experience < 60 then [expSectionRec] else []) ++
   (if s.skills < 50 then [skillsSectionRec] else []) ++
   (if s.achievements < 40 then [achSectionRec] else []) ++
   (if s.formatting < 50 then [fmtSectionRec] else [])).take 6

/-- Industry indicators of `generateRoadmap`. -/
def roadmapIndicators : List (Str × List Str) :=
  [("technology".data, strs ["software", "developer", "programmer", "coding", "web", "app", "mobile", "frontend", "backend", "fullstack"]),
   ("business".data, strs ["manager", "marketing", "sales", "business", "finance", "accounting", "hr", "operations"]),
   ("healthcare".data, strs ["doctor", "nurse", "medical", "healthcare", "hospital", "pharmacy", "clinical"]),
   ("education".data, strs ["teacher", "professor", "educator", "teaching", "school", "university", "training"]),
   ("engineering".data, strs ["engineer", "civil", "mechanical", "electrical", "chemical", "design"]),
   ("creative".data, strs ["designer", "artist", "creative", "graphic", "content", "writer", "photographer"]),
   ("service".data, strs ["customer service", "hospitality", "hotel", "restaurant", "retail", "sales"]),
   ("legal".data, strs ["lawyer", "legal", "attorney", "court", "judge", "paralegal"]),
   ("government".data, strs ["government", "public", "police", "fire", "military", "defense"]),
   ("finance".data, strs ["banking", "investment", "finance", "accountant", "financial", "insurance"])]

/-- Industry indicators of `suggestRoles` (an extended set). -/
def rolesIndicators : List (Str × List Str) :=
  [("technology".data, strs ["software", "developer", "programmer", "coding", "web", "app", "mobile", "frontend", "backend", "fullstack", "react", "angular", "vue", "node", "python", "java", "javascript"]),
   ("business".data, strs ["manager", "marketing", "sales", "business", "finance", "accounting", "hr", "human resources", "operations", "project management", "strategy", "consulting"]),
   ("healthcare".data, strs ["doctor", "nurse", "medical", "healthcare", "hospital", "pharmacy", "pharmacist", "clinical", "patient care", "therapy", "dentist"]),
   ("education".data, strs ["teacher", "professor", "educator", "teaching", "school", "university", "training", "instruction", "curriculum", "academic"]),
   ("engineering".data, strs ["engineer", "civil", "mechanical", "electrical", "chemical", "design", "construction", "manufacturing", "technical"]),
   ("creative".data, strs ["designer", "artist", "creative", "graphic", "content", "writer", "photographer", "video", "media", "advertising"]),
   ("service".data, strs ["customer service", "hospitality", "hotel", "restaurant", "retail", "sales", "support", "call center", "client"]),
   ("legal".data, strs ["lawyer", "legal", "attorney", "court", "judge", "paralegal", "law", "juris", "advocate"]),
   ("government".data, strs ["government", "public", "police", "fire", "military", "defense", "civil service", "administration", "public service"]),
   ("finance".data, strs ["banking", "investment", "finance", "accountant", "financial", "insurance", "audit", "tax", "wealth management"])]

/-- One step of the running-maximum industry scan: a strictly greater match
count replaces the current best. -/
def detectStep (tokens : List Str) (a : Str × Nat) (p : Str × List Str) : Str × Nat :=
  if a.2 < matchCount tokens p.2 then (p.1, matchCount tokens p.2) else a

/-- The running-maximum fold over an indicator table. -/
def detectFold (tokens : List Str) (acc : Str × Nat) (l : List (Str × List Str)) : Str × Nat :=
  l.foldl (detectStep tokens) acc

/-- The industry detection shared (as an algorithm) by `generateRoadmap` and
`suggestRoles`: running maximum with strict comparison, starting from
`general` with zero matches. -/
def detectIndustry (inds : List (Str × List Str)) (tokens : List Str) : Str :=
  (detectFold tokens (("general").data, 0) inds).1

/-- The industry `generateRoadmap` selects. -/
def roadmapIndustry (env : TextEnv) (text : Str) : Str :=
  detectIndustry roadmapIndicators (preprocessText env text)

/-- The industry `suggestRoles` selects. -/
def rolesIndustry (env : TextEnv) (text : Str) : Str :=
  detectIndustry rolesIndicators (preprocessText env text)

/-- A career-roadmap step. -/
structure RoadmapItem where
  title : Str
  type : Str
  description : Str
deriving DecidableEq

/-- The `general` roadmap template (also the lookup fallback). -/
def generalRoadmap : List RoadmapItem :=
  [{ title := ("Develop Professional Skills").data, type := ("learn").data,
     description := ("Enhance communication, organization, and time management").data },
   { title := ("Build Industry Knowledge").data, type := ("learn").data,
     description := ("Gain expertise in your chosen field through continuous learning").data },
   { title := ("Create Professional Network").data, type := ("project").data,
     description := ("Connect with industry professionals and mentors").data }]

/-- The `industryRoadmaps` template table of `generateRoadmap`. -/
def industryRoadmaps : List (Str × List RoadmapItem) :=
  [(("technology").data,
    [{ title := ("Master Core Technical Skills").data, type := ("learn").data,
       description := ("Strengthen programming fundamentals and core technologies").data },
     { title := ("Build Practical Projects").data, type := ("project").data,
       description := ("Create real-world applications to demonstrate expertise").data },
     { title := ("Learn Industry Best Practices").data, type := ("learn").data,
       description := ("Study modern development methodologies and standards").data }]),
   (("business").data,
    [{ title := ("Develop Business Acumen").data, type := ("learn").data,
       description := ("Understand market dynamics and business operations").data },
     { title := ("Enhance Communication Skills").data, type := ("learn").data,
       description := ("Build strong presentation and negotiation abilities").data },
     { title := ("Gain Leadership Experience").data, type := ("project").data,
       description := ("Lead initiatives and manage team projects").data }]),
   (("healthcare").data,
    [{ title := ("Advance Clinical Knowledge").data, type := ("learn").data,
       description := ("Stay updated with latest medical practices and technologies").data },
     { title := ("Develop Patient Care Skills").data, type := ("project").data,
       description := ("Enhance bedside manner and patient communication").data },
     { title := ("Pursue Specialization").data, type := ("learn").data,
       description := ("Focus on specific medical areas of interest").data }]),
   (("education").data,
    [{ title := ("Enhance Teaching Methodologies").data, type := ("learn").data,
       description := ("Learn modern pedagogical approaches and techniques").data },
     { title := ("Develop Curriculum Skills").data, type := ("project").data,
       description := ("Create engaging educational content and materials").data },
     { title := ("Build Educational Technology Skills").data, type := ("learn").data,
       description := ("Master digital tools for modern education").data }]),
   (("engineering").data,
    [{ title := ("Strengthen Technical Foundation").data, type := ("learn").data,
       description := ("Master core engineering principles and mathematics").data },
     { title := ("Gain Practical Experience").data, type := ("project").data,
       description := ("Work on hands-on engineering projects and designs").data },
     { title := ("Learn Industry Standards").data, type := ("learn").data,
       description := ("Understand safety protocols and engineering best practices").data }]),
   (("creative").data,
    [{ title := ("Develop Creative Portfolio").data, type := ("project").data,
       description := ("Build a strong portfolio showcasing diverse creative work").data },
     { title := ("Master Design Tools").data, type := ("learn").data,
       description := ("Become proficient in industry-standard creative software").data },
     { title := ("Understand Market Trends").data, type := ("learn").data,
       description := ("Stay current with design trends and creative industry developments").data }]),
   (("service").data,
    [{ title := ("Enhance Customer Service Skills").data, type := ("learn").data,
       description := ("Develop exceptional client interaction and problem-solving abilities").data },
     { title := ("Learn Service Industry Best Practices").data, type := ("learn").data,
       description := ("Understand hospitality and service excellence standards").data },
     { title := ("Build Management Skills").data, type := ("project").data,
       description := ("Gain experience in team coordination and service operations").data }]),
   (("legal").data,
    [{ title := ("Deepen Legal Knowledge").data, type := ("learn").data,
       description := ("Study relevant laws, regulations, and legal precedents").data },
     { title := ("Develop Analytical Skills").data, type := ("learn").data,
       description := ("Enhance legal research and case analysis capabilities").data },
     { title := ("Gain Practical Legal Experience").data, type := ("project").data,
       description := ("Participate in real legal cases and client interactions").data }]),
   (("government").data,
    [{ title := ("Understand Public Policy").data, type := ("learn").data,
       description := ("Study governance structures and public administration").data },
     { title := ("Develop Civic Engagement Skills").data, type := ("learn").data,
       description := ("Learn community outreach and public service delivery").data },
     { title := ("Build Leadership in Public Service").data, type := ("project").data,
       description := ("Lead initiatives that benefit communities and citizens").data }]),
   (("finance").data,
    [{ title := ("Master Financial Analysis").data, type := ("learn").data,
       description := ("Develop skills in financial modeling and market analysis").data },
     { title := ("Understand Regulatory Framework").data, type := ("learn").data,
       description := ("Study financial regulations and compliance requirements").data },
     { title := ("Gain Investment Experience").data, type := ("project").data,
       description := ("Work on portfolio management and investment strategies").data }]),
   (("general").data, generalRoadmap)]

/-- Association-list lookup with a default, modelling `table[key] || dflt`. -/
def lookupD {α : Type} (l : List (Str × α)) (k : Str) (dflt : α) : α :=
  ((l.find? (fun p => decide (p.1 = k))).map (fun p => p.2)).getD dflt

/-- The roadmap template for a detected industry
(`industryRoadmaps[primaryIndustry] || industryRoadmaps['general']`). -/
def roadmapTemplate (ind : Str) : List RoadmapItem :=
  lookupD industryRoadmaps ind generalRoadmap

/-- The leadership step appended when the experience score exceeds 70. -/
def leadershipStep : RoadmapItem :=
  { title := ("Develop Leadership and Management Skills").data, type := ("learn").data,
    description := ("Build team leadership, strategic planning, and decision-making capabilities").data }

/-- The certification milestone appended when the skills score exceeds 60. -/
def certStep : RoadmapItem :=
  { title := ("Pursue Professional Certifications").data, type := ("milestone").data,
    description := ("Obtain industry-recognized credentials to validate your expertise").data }

/-- The constant closing step. -/
def closingStep : RoadmapItem :=
  { title := ("Continuous Professional Development").data, type := ("learn").data,
    description := ("Commit to lifelong learning and skill enhancement in your field").data }

/-- Translation of `generateRoadmap`: industry template, conditional steps,
closing step, truncation to 6. -/
def generateRoadmap (env : TextEnv) (text : Str) (s : Sections) : List RoadmapItem :=
  let base := roadmapTemplate (roadmapIndustry env text)
  ((base ++
    (if 70 < s.experience then [leadershipStep] else []) ++
    (if 60 < s.skills then [certStep] else [])) ++
   [closingStep]).take 6

/-- Word characters for JavaScript `\b` boundaries. -/
def isWordChar (c : Char) : Bool := c.isAlpha || c.isDigit || c = '_'

/-- Numeric value of a digit run (the effect of `parseInt` on a match whose
leading characters are the digits). -/
def digitsToNat (ds : Str) : Nat := ds.foldl (fun a c => a * 10 + (c.toNat - 48)) 0

/-- Matcher for one `/\b(\d+)\s*(?:year|yr)s?\b/` occurrence at the current
position of lower-cased text: `prev` is the preceding character (for the
leading boundary).  Returns the parsed number and the match length. -/
def yearMatchAt (prev : Option Char) (s : Str) : Option (Nat × Nat) :=
  let okBefore := match prev with
    | none => true
    | some p => !(isWordChar p)
  if !okBefore then none
  else
    let ds := s.takeWhile Char.isDigit
    if ds.isEmpty then none
    else
      let r1 := s.drop ds.length
      let sp := r1.takeWhile isJsSpace
      let r2 := r1.drop sp.length
      let boundaryAfter := fun (n : Nat) =>
        match (s.drop n).head? with
        | none => true
        | some c => !(isWordChar c)
      if List.isPrefixOf ("year".data) r2 then
        let b := ds.length + sp.length + 4
        if List.isPrefixOf ("s".data) (r2.drop 4) && boundaryAfter (b + 1) then
          some (digitsToNat ds, b + 1)
        else if boundaryAfter b then some (digitsToNat ds, b)
        else none
      else if List.isPrefixOf ("yr".data) r2 then
        let b := ds.length + sp.length + 2
        if List.isPrefixOf ("s".data) (r2.drop 2) && boundaryAfter (b + 1) then
          some (digitsToNat ds, b + 1)
        else if boundaryAfter b then some (digitsToNat ds, b)
        else none
      else none

/-- Collect the values of all `"<N> year(s)/yr(s)"` matches, scanning left to
right with the global flag. -/
def yearsAux : Nat → Option Char → Str → List Nat
  | 0, _, _ => []
  | _, _, [] => []
  | fuel + 1, prev, c :: rest =>
    match yearMatchAt prev (c :: rest) with
    | some (v, n) =>
      if n = 0 then []
      else v :: yearsAux fuel (((c :: rest).take n).getLast?) ((c :: rest).drop n)
    | none => yearsAux fuel (some c) rest

/-- Translation of `classifyExperienceLevel`: maximum explicit year count
OR-combined with the experience score. -/
def classifyExperienceLevel (experienceScore : Nat) (text : Str) : Str :=
  let lower := toLowerStr text
  let years := (yearsAux lower.length none lower).foldl max 0
  if 5 ≤ years || 80 ≤ experienceScore then ("Senior Level").data
  else if 2 ≤ years || 60 ≤ experienceScore then ("Mid Level").data
  else ("Entry Level").data

/-- Insert-or-add into the `skillCounts` association list, preserving
insertion order (JavaScript object key order). -/
def upsertCount (l : List (Str × Nat)) (k : Str) (m : Nat) : List (Str × Nat) :=
  if l.any (fun p => decide (p.1 = k)) then
    l.map (fun p => if p.1 = k then (p.1, p.2 + m) else p)
  else l ++ [(k, m)]

/-- Translation of `detectPrimarySkills`: per-keyword token counts, sorted by
count descending (stable, as the V8 sort), top 8 keywords. -/
def detectPrimarySkills (env : TextEnv) (text : Str) : List Str :=
  let tokens := preprocessText env text
  let skillCounts :=
    skillCategories.foldl
      (fun acc p =>
        p.2.foldl
          (fun acc2 kw =>
            let m := (tokens.filter (fun t => bidirMatch t kw)).length
            if 0 < m then upsertCount acc2 kw m else acc2)
          acc)
      []
  ((skillCounts.mergeSort (fun a b => b.2 ≤ a.2)).take 8).map (fun p => p.1)

/-- Model of `text.split(/\s+/)`: split at maximal whitespace runs, keeping
the empty boundary pieces exactly as JavaScript does. -/
def splitWsAux : Nat → Str → List Str
  | 0, s => [s.takeWhile (fun c => !(isJsSpace c))]
  | fuel + 1, s =>
    let piece := s.takeWhile (fun c => !(isJsSpace c))
    let rest := s.drop piece.length
    if rest.isEmpty then [piece]
    else piece :: splitWsAux fuel (rest.dropWhile isJsSpace)

/-- Split a string on whitespace runs. -/
def splitWs (s : Str) : List Str := splitWsAux s.length s

/-- Translation of `generateSummary`. -/
def generateSummary (text : Str) (score : Nat) (experienceLevel : Str) (primarySkills : List Str) : Str :=
  let len := (splitWs text).length
  let skillsList := List.intercalate ((", ").data) (primarySkills.take 3)
  ("This is a ").data ++ toLowerStr experienceLevel ++ (" resume (").data ++
  (if 80 ≤ score then ("strong").data else if 60 ≤ score then ("solid").data else ("developing").data) ++
  (") with approximately ").data ++ (toString len).data ++
  (" words. The candidate demonstrates proficiency in ").data ++ skillsList ++
  (" and shows ").data ++ (if 70 ≤ score then ("clear").data else ("emerging").data) ++
  (" potential for professional growth.").data

/-- Translation of `identifyStrengths`. -/
def identifyStrengths (s : Sections) (primarySkills : List Str) : List Str :=
  let strengths :=
    (if 80 ≤ s.skills then
      [("Strong technical skills including ").data ++ List.intercalate ((", ").data) (primarySkills.take 3)]
     else []) ++
    (if 75 ≤ s.experience then [("Extensive professional experience with clear career progression").data] else []) ++
    (if 70 ≤ s.achievements then [("Quantified achievements demonstrating measurable impact").data] else []) ++
    (if 80 ≤ s.formatting then [("Well-structured and professionally formatted resume").data] else []) ++
    (if 60 ≤ s.projects then [("Solid project portfolio and hands-on experience").data] else [])
  if strengths.isEmpty then [("Shows potential for development and learning").data] else strengths

/-- Translation of `identifyWeaknesses`. -/
def identifyWeaknesses (s : Sections) : List Str :=
  let weaknesses :=
    (if s.skills < 50 then [("Technical skills section needs more detail and specificity").data] else []) ++
    (if s.experience < 50 then [("Limited work experience documentation").data] else []) ++
    (if s.achievements < 40 then [("Could include more quantified results and achievements").data] else []) ++
    (if s.formatting < 50 then [("Formatting and structure could be improved for better readability").data] else [])
  if weaknesses.isEmpty then [("Minor improvements needed for optimal impact").data] else weaknesses

/-- The `industryRoles` table of `suggestRoles`. -/
def industryRoles : List (Str × List Str) :=
  [(("technology").data, strs ["Software Developer", "IT Specialist", "Technical Consultant", "Systems Analyst", "Web Developer"]),
   (("business").data, strs ["Business Analyst", "Marketing Manager", "Sales Executive", "Operations Manager", "Project Coordinator"]),
   (("healthcare").data, strs ["Healthcare Professional", "Medical Assistant", "Clinical Specialist", "Healthcare Administrator", "Patient Care Coordinator"]),
   (("education").data, strs ["Educator", "Training Specialist", "Instructional Designer", "Academic Advisor", "Learning Consultant"]),
   (("engineering").data, strs ["Engineer", "Technical Specialist", "Design Engineer", "Project Engineer", "Technical Consultant"]),
   (("creative").data, strs ["Creative Professional", "Content Creator", "Media Specialist", "Design Consultant", "Creative Director"]),
   (("service").data, strs ["Customer Service Professional", "Hospitality Manager", "Service Coordinator", "Client Relations Specialist", "Operations Associate"]),
   (("legal").data, strs ["Legal Professional", "Paralegal", "Legal Assistant", "Compliance Specialist", "Legal Consultant"]),
   (("government").data, strs ["Public Service Professional", "Administrative Officer", "Government Specialist", "Public Policy Assistant", "Civil Service Professional"]),
   (("finance").data, strs ["Financial Professional", "Accounting Specialist", "Financial Analyst", "Banking Professional", "Investment Associate"]),
   (("general").data, strs ["Professional", "Specialist", "Coordinator", "Associate", "Consultant"])]

/-- The `experienceRoles` prefix table of `suggestRoles`. -/
def experienceRoles : List (Str × List Str) :=
  [(("senior").data, strs ["Senior", "Lead", "Manager", "Director", "Head"]),
   (("mid").data, strs ["Specialist", "Coordinator", "Analyst", "Professional", "Consultant"]),
   (("entry").data, strs ["Associate", "Assistant", "Junior", "Trainee", "Coordinator"])]

/-- The `general` role list (also the lookup fallback). -/
def generalRoles : List Str :=
  strs ["Professional", "Specialist", "Coordinator", "Associate", "Consultant"]

/-- The `entry` prefix list (lookup fallback for the prefix table). -/
def entryPrefixes : List Str :=
  strs ["Associate", "Assistant", "Junior", "Trainee", "Coordinator"]

/-- The role list of `suggestRoles` before deduplication and truncation:
first 3 industry base roles (prefixed by position for mid/senior), then the
two constant roles. -/
def rolesCombined (env : TextEnv) (s : Sections) (lastResumeText : Str) : List Str :=
  let primaryIndustry := rolesIndustry env lastResumeText
  let experienceLevel : Str :=
    if 70 ≤ s.experience then ("senior").data
    else if 40 ≤ s.experience then ("mid").data
    else ("entry").data
  let baseRoles := lookupD industryRoles primaryIndustry generalRoles
  let expPrefixes := lookupD experienceRoles experienceLevel entryPrefixes
  ((baseRoles.enum.filter (fun p => p.1 < 3)).map
    (fun p =>
      if experienceLevel ≠ ("entry").data ∧ p.1 < expPrefixes.length then
        expPrefixes.getD p.1 [] ++ (" ").data ++ p.2
      else p.2)) ++
  [("Professional").data, ("Specialist").data]

/-- Remove duplicates keeping the first occurrence of each element
(the effect of `[...new Set(roles)]`). -/
def dedupFirstAux : Nat → List Str → List Str
  | 0, _ => []
  | _, [] => []
  | fuel + 1, x :: xs => x :: dedupFirstAux fuel (xs.filter (fun y => decide (y ≠ x)))

/-- First-occurrence deduplication. -/
def dedupFirst (l : List Str) : List Str := dedupFirstAux l.length l

/-- Translation of `suggestRoles`: combined roles, dedup, truncation to 8. -/
def suggestRoles (env : TextEnv) (s : Sections) (lastResumeText : Str) : List Str :=
  (dedupFirst (rolesCombined env s lastResumeText)).take 8

/-- The fixed salary bands of `estimateSalary`. -/
def salaryBands : List (Str × (Nat × Nat)) :=
  [(("Entry Level").data, (45000, 75000)),
   (("Mid Level").data, (75000, 125000)),
   (("Senior Level").data, (125000, 185000))]

/-- Band lookup with the Entry-band fallback
(`baseRanges[experienceLevel] || baseRanges['Entry Level']`). -/
def salaryBand (experienceLevel : Str) : Nat × Nat :=
  lookupD salaryBands experienceLevel (45000, 75000)

/-- The buffer-and-cap multiplier `Math.min(1, score / 100 + 0.2)`. -/
def salaryMultiplier (score : Nat) : ℚ :=
  min 1 ((score : ℚ) / 100 + 20/100)

/-- Rounded lower bound of the estimated salary range. -/
def salaryLow (score : Nat) (experienceLevel : Str) : Nat :=
  natRound ((salaryBand experienceLevel).1 * salaryMultiplier score)

/-- Rounded upper bound of the estimated salary range. -/
def salaryHigh (score : Nat) (experienceLevel : Str) : Nat :=
  natRound ((salaryBand experienceLevel).2 * salaryMultiplier score)

/-- Model of `Number.prototype.toLocaleString`: decimal digits with
thousands separators. -/
def fmtComma (n : Nat) : Str :=
  let rev := (toString n).data.reverse
  let chunks := List.range ((rev.length + 2) / 3) |>.map (fun i => (rev.drop (3 * i)).take 3)
  (List.intercalate ((",").data) chunks).reverse

/-- The salary estimate record. -/
structure Salary where
  range : Str
  justification : Str
deriving DecidableEq

/-- Translation of `estimateSalary`. -/
def estimateSalary (score : Nat) (experienceLevel : Str) : Salary :=
  { range := ("$").data ++ fmtComma (salaryLow score experienceLevel) ++
             (" - $").data ++ fmtComma (salaryHigh score experienceLevel)
    justification := ("Based on ").data ++ toLowerStr experienceLevel ++
                     (" experience and comprehensive skill assessment score of ").data ++
                     (toString score).data }

/-- The `scores` object of the report. -/
structure Scores where
  overall : Nat
  skills : Nat
  experience : Nat
  education : Nat
  projects : Nat
  achievements : Nat
  formatting : Nat
deriving DecidableEq

/-- The analysis report returned by `analyzeResume`. -/
structure Report where
  executiveSummary : Str
  scores : Scores
  strengths : List Str
  weaknesses : List Str
  experienceLevel : Str
  primarySkills : List Str
  detailedRecommendations : List Recommendation
  roadmap : List RoadmapItem
  targetRoles : List Str
  salaryExpectation : Salary
deriving DecidableEq

/-- Translation of the success path of `analyzeResume`: pipeline and report
assembly.  The instance field `lastResumeText` is threaded directly into
`suggestRoles` (it is assigned from the same input before use). -/
def analyzeReport (env : TextEnv) (resumeText : Str) : Report :=
  let sections := scoreSections env resumeText
  let overallScore := natRound (overallScoreQ sections)
  let recommendations := generateRecommendations env resumeText sections
  let roadmap := generateRoadmap env resumeText sections
  let experienceLevel := classifyExperienceLevel sections.experience resumeText
  let primarySkills := detectPrimarySkills env resumeText
  { executiveSummary := generateSummary resumeText overallScore experienceLevel primarySkills
    scores :=
      { overall := overallScore
        skills := sections.skills
        experience := sections.experience
        education := sections.education
        projects := sections.projects
        achievements := sections.achievements
        formatting := sections.formatting }
    strengths := identifyStrengths sections primarySkills
    weaknesses := identifyWeaknesses sections
    experienceLevel := experienceLevel
    primarySkills := primarySkills
    detailedRecommendations := recommendations
    roadmap := roadmap
    targetRoles := suggestRoles env sections resumeText
    salaryExpectation := estimateSalary overallScore experienceLevel }

/-- Translation of `analyzeResume`'s control flow: validation, then the
pipeline; the surrounding `try`/`catch` wraps any thrown error with the
`Failed to analyze resume: ` prefix before rethrowing. -/
def analyzeResume (env : TextEnv) (resumeText : Str) : Except Str Report :=
  let body : Except Str Report :=
    if resumeText.isEmpty = true ∨ (jsTrim resumeText).length < 100 then
      Except.error (("Resume content is too short or empty").data)
    else
      Except.ok (analyzeReport env resumeText)
  match body with
  | Except.error e => Except.error ((("Failed to analyze resume: ").data) ++ e)
  | Except.ok r => Except.ok r

/-- Modelled from the spec: the external `natural` word tokenizer is not part
of the repository; the design document describes preprocessing step (c) as
splitting into whitespace-delimited tokens. -/
def specTokenize (s : Str) : List Str :=
  (splitWs s).filter (fun t => !t.isEmpty)

/-- Modelled from the spec: the external `stopword` package is not part of
the repository; the design document calls for removal of words from a
standard stopword list. -/
def specStopwords : List Str :=
  strs ["a", "an", "and", "are", "as", "at", "be", "but", "by", "for", "from",
        "has", "he", "in", "is", "it", "its", "of", "on", "or", "that", "the",
        "to", "was", "were", "will", "with"]

/-- Modelled from the spec: stopword removal filters tokens against the
stopword list. -/
def specRemoveStopwords (tokens : List Str) : List Str :=
  tokens.filter (fun t => decide (t ∉ specStopwords))

/-- Modelled from the spec: the external Porter stemmer is not part of the
repository; the design document describes it as a suffix-stripping stemmer,
modelled here by stripping common inflection suffixes. -/
def specStem (t : Str) : Str :=
  if List.isSuffixOf (("ing").data) t ∧ 4 < t.length then t.take (t.length - 3)
  else if List.isSuffixOf (("ed").data) t ∧ 3 < t.length then t.take (t.length - 2)
  else if List.isSuffixOf (("ss").data) t then t
  else if List.isSuffixOf (("s").data) t ∧ 2 < t.length then t.take (t.length - 1)
  else t

/-- The concrete text environment built from the spec-modelled collaborators. -/
def specEnv : TextEnv :=
  { tokenize := specTokenize
    removeStopwords := specRemoveStopwords
    stem := specStem }

/-- A valid input of exactly 100 trimmed characters. -/
def aText : Str := List.replicate 100 'a'

/-- A valid input with no quantification signal of any kind. -/
def nurseText : Str := (List.replicate 5 (("nurse clinical hospital ").data)).flatten

/-- A valid input whose only quantification-class character is a plus sign. -/
def plusText : Str := List.replicate 130 'x' ++ ['+']

/-- A valid input whose tokens match a technology keyword present only in the
role-suggestion indicator lists. -/
def pyText : Str := (List.replicate 15 (("python ").data)).flatten

/-- An input containing the symbol-bearing skill tokens. -/
def cppText : Str := ("c++ c# node.js").data

/-- Rounding a rational below an integer bound stays below the bound. -/
theorem natRound_le_of_le {q : ℚ} {n : Nat} (h : q ≤ (n : ℚ)) :
    natRound q ≤ n := by
  unfold natRound
  rw [Int.toNat_le]
  by_contra hcon
  push_neg at hcon
  have h1 : ((n : ℤ) + 1 : ℚ) ≤ ((Int.floor (q + 1/2) : ℤ) : ℚ) := by
    exact_mod_cast hcon
  have h2 : ((Int.floor (q + 1/2) : ℤ) : ℚ) ≤ q + 1/2 := Int.floor_le _
  have h3 : ((n : ℤ) : ℚ) = (n : ℚ) := by push_cast; ring
  rw [h3] at h1
  linarith

/-- Every industry roadmap template has exactly three steps. -/
theorem roadmapTemplate_length (ind : Str) : (roadmapTemplate ind).length = 3 := by
  unfold roadmapTemplate lookupD
  cases hf : industryRoadmaps.find? (fun p => decide (p.1 = ind)) with
  | none => decide
  | some p =>
    have hp := List.mem_of_find?_eq_some hf
    have hall : ∀ q ∈ industryRoadmaps, q.2.length = 3 := by decide
    simp [hall p hp]

/-- First-occurrence deduplication yields a sublist of its input. -/
theorem dedupFirstAux_sublist : ∀ (fuel : Nat) (l : List Str), (dedupFirstAux fuel l).Sublist l := by
  intro fuel
  induction fuel with
  | zero => intro l; simp [dedupFirstAux]
  | succ n ih =>
    intro l
    cases l with
    | nil => simp [dedupFirstAux]
    | cons x xs =>
      rw [dedupFirstAux]
      exact List.Sublist.cons₂ x ((ih _).trans (List.filter_sublist xs))

/-- First-occurrence deduplication yields a duplicate-free list. -/
theorem dedupFirstAux_nodup : ∀ (fuel : Nat) (l : List Str), (dedupFirstAux fuel l).Nodup := by
  intro fuel
  induction fuel with
  | zero => intro l; simp [dedupFirstAux]
  | succ n ih =>
    intro l
    cases l with
    | nil => simp [dedupFirstAux]
    | cons x xs =>
      rw [dedupFirstAux]
      refine List.Nodup.cons ?_ (ih _)
      intro hmem
      have hx := (dedupFirstAux_sublist n _).subset hmem
      have := (List.mem_filter.mp hx).2
      simp at this

/-- Maximum of a list of naturals. -/
def listMax (l : List Nat) : Nat := l.foldr max 0

/-- Per-industry match counts of an indicator table. -/
def indCounts (tokens : List Str) (inds : List (Str × List Str)) : List Nat :=
  inds.map (fun p => matchCount tokens p.2)

/-- A positive list maximum is attained by some element. -/
theorem listMax_mem_of_pos {l : List Nat} (h : 0 < listMax l) : listMax l ∈ l := by
  induction l with
  | nil => simp [listMax] at h
  | cons a l ih =>
    have hm : listMax (a :: l) = max a (listMax l) := rfl
    rw [hm] at h ⊢
    by_cases hal : listMax l ≤ a
    · rw [max_eq_left hal]; exact List.mem_cons_self a l
    · rw [max_eq_right (le_of_not_le hal)]
      exact List.mem_cons_of_mem a (ih (by omega))

/-- `find?` only depends on the predicate's values on the list. -/
theorem find?_congr {α : Type} (p q : α → Bool) :
    ∀ (l : List α), (∀ a ∈ l, p a = q a) → l.find? p = l.find? q := by
  intro l
  induction l with
  | nil => intro _; rfl
  | cons a l ih =>
    intro h
    rw [List.find?_cons, List.find?_cons, h a (List.mem_cons_self a l)]
    cases q a with
    | true => rfl
    | false => exact ih (fun b hb => h b (List.mem_cons_of_mem a hb))

/-- Unfolding one step of the running-maximum fold. -/
theorem detectFold_cons (tokens : List Str) (acc : Str × Nat) (p : Str × List Str) (l : List (Str × List Str)) :
    detectFold tokens acc (p :: l) = detectFold tokens (detectStep tokens acc p) l := rfl

/-- The running maximum computed by the fold is the maximum of the initial
value and all match counts. -/
theorem detectFold_snd (tokens : List Str) :
    ∀ (l : List (Str × List Str)) (acc : Str × Nat),
      (detectFold tokens acc l).2 = max acc.2 (listMax (indCounts tokens l)) := by
  intro l
  induction l with
  | nil => intro acc; simp [detectFold, listMax, indCounts]
  | cons p l ih =>
    intro acc
    rw [detectFold_cons, ih]
    unfold detectStep
    by_cases h : acc.2 < matchCount tokens p.2 <;>
      simp [h, indCounts, listMax] <;> omega

/-- The winner of the running-maximum fold is the first entry whose match
count exceeds the initial maximum and equals the final maximum; if no entry
does, the initial name survives. -/
theorem detectFold_fst (tokens : List Str) :
    ∀ (l : List (Str × List Str)) (acc : Str × Nat),
      (detectFold tokens acc l).1 =
        (((l.find? (fun p => decide (acc.2 < matchCount tokens p.2 ∧
            matchCount tokens p.2 = (detectFold tokens acc l).2))).map
          (fun p => p.1)).getD acc.1) := by
  intro l
  induction l with
  | nil => intro acc; simp [detectFold]
  | cons p l ih =>
    intro acc
    by_cases h : acc.2 < matchCount tokens p.2
    · have hstep : detectStep tokens acc p = (p.1, matchCount tokens p.2) := by
        unfold detectStep; rw [if_pos h]
      rw [detectFold_cons, hstep]
      by_cases hc : matchCount tokens p.2 = (detectFold tokens (p.1, matchCount tokens p.2) l).2
      · -- the head already attains the final maximum, so it wins
        have hp : decide (acc.2 < matchCount tokens p.2 ∧
            matchCount tokens p.2 = (detectFold tokens (p.1, matchCount tokens p.2) l).2) = true := by
          simp only [decide_eq_true_eq]; exact ⟨h, hc⟩
        rw [List.find?_cons]
        simp only [hp]
        have hnone : l.find? (fun q => decide ((p.1, matchCount tokens p.2).2 < matchCount tokens q.2 ∧
            matchCount tokens q.2 = (detectFold tokens (p.1, matchCount tokens p.2) l).2)) = none := by
          rw [List.find?_eq_none]
          intro q _
          simp only [decide_eq_true_eq, not_and]
          intro h1 h2
          rw [← hc] at h2
          exact absurd h2 (Nat.ne_of_gt h1)
        rw [ih (p.1, matchCount tokens p.2), hnone]
        rfl
      · -- the final maximum comes from the tail
        have hM : (detectFold tokens (p.1, matchCount tokens p.2) l).2 =
            max (matchCount tokens p.2) (listMax (indCounts tokens l)) := detectFold_snd tokens l _
        have hlt : matchCount tokens p.2 < (detectFold tokens (p.1, matchCount tokens p.2) l).2 := by
          omega
        have hLm : (detectFold tokens (p.1, matchCount tokens p.2) l).2 = listMax (indCounts tokens l) := by
          omega
        have hppred : decide (acc.2 < matchCount tokens p.2 ∧
            matchCount tokens p.2 = (detectFold tokens (p.1, matchCount tokens p.2) l).2) = false := by
          simp only [decide_eq_false_iff_not, not_and]
          intro _ h2
          exact hc h2
        rw [List.find?_cons]
        simp only [hppred]
        have hcongr : l.find? (fun q => decide (acc.2 < matchCount tokens q.2 ∧
              matchCount tokens q.2 = (detectFold tokens (p.1, matchCount tokens p.2) l).2)) =
            l.find? (fun q => decide ((p.1, matchCount tokens p.2).2 < matchCount tokens q.2 ∧
              matchCount tokens q.2 = (detectFold tokens (p.1, matchCount tokens p.2) l).2)) := by
          apply find?_congr
          intro q _
          rw [decide_eq_decide]
          constructor
          · rintro ⟨_, h2⟩; exact ⟨by omega, h2⟩
          · rintro ⟨_, h2⟩; exact ⟨by omega, h2⟩
        have hpos : 0 < listMax (indCounts tokens l) := by omega
        have hmem : listMax (indCounts tokens l) ∈ l.map (fun r => matchCount tokens r.2) :=
          listMax_mem_of_pos hpos
        obtain ⟨q, hq, hqc⟩ := List.mem_map.mp hmem
        have hsome : (l.find? (fun r => decide ((p.1, matchCount tokens p.2).2 < matchCount tokens r.2 ∧
            matchCount tokens r.2 = (detectFold tokens (p.1, matchCount tokens p.2) l).2))).isSome = true := by
          rw [List.find?_isSome]
          refine ⟨q, hq, ?_⟩
          simp only [decide_eq_true_eq]
          constructor
          · omega
          · omega
        obtain ⟨r, hr⟩ := Option.isSome_iff_exists.mp hsome
        rw [ih (p.1, matchCount tokens p.2), hcongr, hr]
        rfl
    · have hstep : detectStep tokens acc p = acc := by
        unfold detectStep; rw [if_neg h]
      rw [detectFold_cons, hstep]
      have hppred : decide (acc.2 < matchCount tokens p.2 ∧
          matchCount tokens p.2 = (detectFold tokens acc l).2) = false := by
        simp only [decide_eq_false_iff_not, not_and]
        intro h1 _
        exact absurd h1 h
      rw [List.find?_cons]
      simp only [hppred]
      exact ih acc

/-- The running-maximum fold depends only on the industry names and their
match counts. -/
theorem detectFold_congr (tokens : List Str) :
    ∀ (l₁ l₂ : List (Str × List Str)) (acc : Str × Nat),
      l₁.map (fun p => p.1) = l₂.map (fun p => p.1) →
      l₁.map (fun p => matchCount tokens p.2) = l₂.map (fun p => matchCount tokens p.2) →
      detectFold tokens acc l₁ = detectFold tokens acc l₂ := by
  intro l₁
  induction l₁ with
  | nil =>
    intro l₂ acc h1 _
    cases l₂ with
    | nil => rfl
    | cons q l₂' => simp at h1
  | cons p l ih =>
    intro l₂ acc h1 h2
    cases l₂ with
    | nil => simp at h1
    | cons q l₂' =>
      simp only [List.map_cons, List.cons.injEq] at h1 h2
      rw [detectFold_cons, detectFold_cons]
      have hstep : detectStep tokens acc p = detectStep tokens acc q := by
        unfold detectStep
        rw [h1.1, h2.1]
      rw [hstep]
      exact ih l₂' _ h1.2 h2.2

/-- Each section scorer clamps its result to at most 100. -/
theorem scoreSections_le (env : TextEnv) (text : Str) :
    (scoreSections env text).skills ≤ 100 ∧
    (scoreSections env text).experience ≤ 100 ∧
    (scoreSections env text).education ≤ 100 ∧
    (scoreSections env text).projects ≤ 100 ∧
    (scoreSections env text).achievements ≤ 100 ∧
    (scoreSections env text).formatting ≤ 100 := by
  refine ⟨?_, ?_, ?_, ?_, ?_, ?_⟩ <;>
    simp only [scoreSections, scoreSkillsSection, scoreExperienceSection,
      scoreEducationSection, scoreProjectsSection, scoreAchievementsSection,
      scoreFormatting] <;> omega

/-- A trimmed length of at least 100 rules out the validation failure. -/
theorem valid_not_cond {text : Str} (h : 100 ≤ (jsTrim text).length) :
    ¬(text.isEmpty = true ∨ (jsTrim text).length < 100) := by
  rintro (he | hl)
  · have hnil : text = [] := by
      cases text with
      | nil => rfl
      | cons c cs => simp [List.isEmpty] at he
    subst hnil
    simp [jsTrim] at h
  · omega

/-- On a valid input the analysis succeeds with the assembled report. -/
theorem analyzeResume_valid (env : TextEnv) (text : Str)
    (h : ¬(text.isEmpty = true ∨ (jsTrim text).length < 100)) :
    analyzeResume env text = Except.ok (analyzeReport env text) := by
  unfold analyzeResume
  rw [if_neg h]

/-- On an invalid input the analysis fails with the wrapped validation
message. -/
theorem analyzeResume_invalid (env : TextEnv) (text : Str)
    (h : text.isEmpty = true ∨ (jsTrim text).length < 100) :
    analyzeResume env text =
      Except.error (("Failed to analyze resume: Resume content is too short or empty").data) := by
  unfold analyzeResume
  rw [if_pos h]
  rfl

/-- Truncation bounds the length by the cap. -/
theorem takeLen_le {α : Type} (n : Nat) (l : List α) : (l.take n).length ≤ n := by
  rw [List.length_take]; omega

/-- C3: for every environment and input, each of the six section scores is a
natural number bounded by 100 (each scorer clamps independently with
`min 100`), and the rounded overall weighted score is also bounded by 100. -/
theorem c3_section_and_overall_bounds (env : TextEnv) (text : Str) :
    (scoreSections env text).skills ≤ 100 ∧
    (scoreSections env text).experience ≤ 100 ∧
    (scoreSections env text).education ≤ 100 ∧
    (scoreSections env text).projects ≤ 100 ∧
    (scoreSections env text).achievements ≤ 100 ∧
    (scoreSections env text).formatting ≤ 100 ∧
    natRound (overallScoreQ (scoreSections env text)) ≤ 100 := by
  obtain ⟨h1, h2, h3, h4, h5, h6⟩ := scoreSections_le env text
  refine ⟨h1, h2, h3, h4, h5, h6, ?_⟩
  apply natRound_le_of_le
  unfold overallScoreQ
  have q1 : ((scoreSections env text).skills : ℚ) ≤ 100 := by exact_mod_cast h1
  have q2 : ((scoreSections env text).experience : ℚ) ≤ 100 := by exact_mod_cast h2
  have q3 : ((scoreSections env text).education : ℚ) ≤ 100 := by exact_mod_cast h3
  have q4 : ((scoreSections env text).projects : ℚ) ≤ 100 := by exact_mod_cast h4
  have q5 : ((scoreSections env text).achievements : ℚ) ≤ 100 := by exact_mod_cast h5
  have q6 : ((scoreSections env text).formatting : ℚ) ≤ 100 := by exact_mod_cast h6
  have n1 : (0:ℚ) ≤ ((scoreSections env text).skills : ℚ) := Nat.cast_nonneg _
  have n2 : (0:ℚ) ≤ ((scoreSections env text).experience : ℚ) := Nat.cast_nonneg _
  have n3 : (0:ℚ) ≤ ((scoreSections env text).education : ℚ) := Nat.cast_nonneg _
  have n4 : (0:ℚ) ≤ ((scoreSections env text).projects : ℚ) := Nat.cast_nonneg _
  have n5 : (0:ℚ) ≤ ((scoreSections env text).achievements : ℚ) := Nat.cast_nonneg _
  have n6 : (0:ℚ) ≤ ((scoreSections env text).formatting : ℚ) := Nat.cast_nonneg _
  push_cast
  linarith

/-- C8: the roadmap is exactly the detected industry's 3-step template, then
the leadership step when the experience score exceeds 70, then the
certification milestone when the skills score exceeds 60, then the closing
continuous-development step, and the truncation to 6 never removes anything
because the total never exceeds 6. -/
theorem c8_roadmap_construction (env : TextEnv) (text : Str) (s : Sections) :
    generateRoadmap env text s =
      roadmapTemplate (roadmapIndustry env text) ++
      (if 70 < s.experience then [leadershipStep] else []) ++
      (if 60 < s.skills then [certStep] else []) ++ [closingStep] ∧
    (generateRoadmap env text s).length ≤ 6 := by
  have hlen := roadmapTemplate_length (roadmapIndustry env text)
  have hshape : generateRoadmap env text s =
      roadmapTemplate (roadmapIndustry env text) ++
      (if 70 < s.experience then [leadershipStep] else []) ++
      (if 60 < s.skills then [certStep] else []) ++ [closingStep] := by
    have ha : (if 70 < s.experience then [leadershipStep] else []).length ≤ 1 := by
      split_ifs <;> simp
    have hb : (if 60 < s.skills then [certStep] else []).length ≤ 1 := by
      split_ifs <;> simp
    have h6 : ((roadmapTemplate (roadmapIndustry env text) ++
        (if 70 < s.experience then [leadershipStep] else []) ++
        (if 60 < s.skills then [certStep] else [])) ++ [closingStep]).length ≤ 6 := by
      simp only [List.length_append, List.length_cons, List.length_nil, hlen]
      omega
    unfold generateRoadmap
    rw [List.take_of_length_le h6]
  refine ⟨hshape, ?_⟩
  rw [hshape]
  have ha : (if 70 < s.experience then [leadershipStep] else []).length ≤ 1 := by
    split_ifs <;> simp
  have hb : (if 60 < s.skills then [certStep] else []).length ≤ 1 := by
    split_ifs <;> simp
  simp only [List.length_append, List.length_cons, List.length_nil, hlen]
  omega

/-- C10: the primary skills list is capped at 8, the recommendations at 6,
the roadmap at 6 and the target roles at 8; the target roles are moreover
duplicate-free and a sublist (first occurrences, original order) of the
combined role list. -/
theorem c10_output_caps (env : TextEnv) (text : Str) (s : Sections) :
    (detectPrimarySkills env text).length ≤ 8 ∧
    (generateRecommendations env text s).length ≤ 6 ∧
    (generateRoadmap env text s).length ≤ 6 ∧
    (suggestRoles env s text).length ≤ 8 ∧
    (suggestRoles env s text).Nodup ∧
    (suggestRoles env s text).Sublist (rolesCombined env s text) := by
  refine ⟨?_, ?_, ?_, ?_, ?_, ?_⟩
  · simp only [detectPrimarySkills]
    rw [List.length_map]
    exact takeLen_le 8 _
  · simp only [generateRecommendations]
    exact takeLen_le 6 _
  · simp only [generateRoadmap]
    exact takeLen_le 6 _
  · simp only [suggestRoles]
    exact takeLen_le 8 _
  · exact List.Nodup.sublist (List.take_sublist _ _) (dedupFirstAux_nodup _ _)
  · exact (List.take_sublist _ _).trans (dedupFirstAux_sublist _ _)

/-- C1: on every valid input the overall score of the returned report is the
fixed weighted sum of the six section scores — skills and experience at 0.25,
education and projects at 0.15, achievements and formatting at 0.10 —
rounded to the nearest integer. -/
theorem c1_overall_weighted_sum (env : TextEnv) (text : Str)
    (h : 100 ≤ (jsTrim text).length) :
    (analyzeResume env text).toOption.map (fun r => r.scores.overall) =
      some (natRound (((scoreSections env text).skills : ℚ) * (25/100) +
        ((scoreSections env text).experience : ℚ) * (25/100) +
        ((scoreSections env text).education : ℚ) * (15/100) +
        ((scoreSections env text).projects : ℚ) * (15/100) +
        ((scoreSections env text).achievements : ℚ) * (10/100) +
        ((scoreSections env text).formatting : ℚ) * (10/100))) := by
  rw [analyzeResume_valid env text (valid_not_cond h)]
  rfl

/-- C2 (amended): the analysis fails exactly when the input is empty or its
trimmed length is below 100 characters, an input with exactly 100 trimmed
characters succeeds, but the validation error is not surfaced verbatim: it is
rethrown wrapped with the same prefix applied to unexpected failures. -/
theorem c2_validation_behavior (env : TextEnv) (text : Str) :
    ((analyzeResume env text).isOk = false ↔
      (text.isEmpty = true ∨ (jsTrim text).length < 100)) ∧
    ((text.isEmpty = true ∨ (jsTrim text).length < 100) →
      analyzeResume env text =
        Except.error (("Failed to analyze resume: Resume content is too short or empty").data)) ∧
    ((jsTrim text).length = 100 → (analyzeResume env text).isOk = true) := by
  by_cases hc : text.isEmpty = true ∨ (jsTrim text).length < 100
  · refine ⟨⟨fun _ => hc, fun _ => ?_⟩, fun _ => analyzeResume_invalid env text hc, fun h100 => ?_⟩
    · rw [analyzeResume_invalid env text hc]
      rfl
    · exact absurd hc (valid_not_cond (by omega))
  · refine ⟨⟨fun hfalse => ?_, fun hor => absurd hor hc⟩, fun hor => absurd hor hc, fun _ => ?_⟩
    · rw [analyzeResume_valid env text hc] at hfalse
      simp [Except.isOk, Except.toBool] at hfalse
    · rw [analyzeResume_valid env text hc]
      rfl

/-- C4 (amended): on every valid input whose raw text contains no digits, no
percent signs, no dollar signs, no plus signs (the regex class `[\d+%$]`
also matches a plus), and no quantification verbs, the first generated
recommendation flags missing quantified achievements, with High priority. -/
theorem c4_missing_quantification_rec (env : TextEnv) (text : Str)
    (hvalid : 100 ≤ (jsTrim text).length)
    (hchars : ∀ c ∈ text, c.isDigit = false ∧ c ≠ '+' ∧ c ≠ '%' ∧ c ≠ '$')
    (hverbs : ∀ v ∈ quantVerbs, includes (toLowerStr text) v = false) :
    (analyzeResume env text).toOption.map
        (fun r => r.detailedRecommendations.head?) = some (some lacksQuantRec) ∧
    lacksQuantRec.priority = ("High").data := by
  have hq : hasQuantification text = false := by
    unfold hasQuantification
    rw [Bool.or_eq_false_iff]
    constructor
    · rw [List.any_eq_false]
      intro c hc
      obtain ⟨h1, h2, h3, h4⟩ := hchars c hc
      simp [h1, h2, h3, h4]
    · rw [List.any_eq_false]
      intro v hv
      simp [hverbs v hv]
  have hrec : (generateRecommendations env text (scoreSections env text)).head? =
      some lacksQuantRec := by
    unfold generateRecommendations
    rw [hq]
    simp
  refine ⟨?_, rfl⟩
  rw [analyzeResume_valid env text (valid_not_cond hvalid)]
  simp only [Except.toOption, Option.map]
  rw [show (analyzeReport env text).detailedRecommendations =
    generateRecommendations env text (scoreSections env text) from rfl, hrec]

/-- C5: industry detection iterates the fixed industry order, counts
indicator keywords with at least one bidirectionally matching token, and uses
a strict greater-than running maximum, so the first industry attaining the
maximal count wins ties; it returns `general` when every count is zero. -/
theorem c5_industry_detection (inds : List (Str × List Str)) (tokens : List Str) :
    roadmapIndicators.map (fun p => p.1) =
      strs ["technology", "business", "healthcare", "education", "engineering",
            "creative", "service", "legal", "government", "finance"] ∧
    rolesIndicators.map (fun p => p.1) =
      strs ["technology", "business", "healthcare", "education", "engineering",
            "creative", "service", "legal", "government", "finance"] ∧
    ((∀ p ∈ inds, matchCount tokens p.2 = 0) →
      detectIndustry inds tokens = ("general").data) ∧
    (0 < listMax (indCounts tokens inds) →
      ∃ p, inds.find?
          (fun q => decide (matchCount tokens q.2 = listMax (indCounts tokens inds))) = some p ∧
        detectIndustry inds tokens = p.1) := by
  have hfst := detectFold_fst tokens inds ((("general").data, 0))
  dsimp only at hfst
  refine ⟨by decide, by decide, ?_, ?_⟩
  · intro hzero
    have hnone : inds.find? (fun p => decide (0 < matchCount tokens p.2 ∧
        matchCount tokens p.2 = (detectFold tokens (("general").data, 0) inds).2)) = none := by
      rw [List.find?_eq_none]
      intro q hq
      simp only [decide_eq_true_eq, not_and]
      intro h1 _
      rw [hzero q hq] at h1
      exact absurd h1 (by omega)
    unfold detectIndustry
    rw [hfst, hnone]
    rfl
  · intro hpos
    have hM2 : (detectFold tokens (("general").data, 0) inds).2 =
        listMax (indCounts tokens inds) := by
      rw [detectFold_snd]
      simp
    have hcongr : inds.find? (fun q => decide (0 < matchCount tokens q.2 ∧
          matchCount tokens q.2 = (detectFold tokens (("general").data, 0) inds).2)) =
        inds.find? (fun q => decide (matchCount tokens q.2 = listMax (indCounts tokens inds))) := by
      apply find?_congr
      intro q _
      rw [decide_eq_decide, hM2]
      constructor
      · rintro ⟨_, h2⟩; exact h2
      · intro h2; exact ⟨by omega, h2⟩
    have hmem : listMax (indCounts tokens inds) ∈ inds.map (fun r => matchCount tokens r.2) :=
      listMax_mem_of_pos hpos
    obtain ⟨q, hq, hqc⟩ := List.mem_map.mp hmem
    have hsome : (inds.find?
        (fun q => decide (matchCount tokens q.2 = listMax (indCounts tokens inds)))).isSome = true := by
      rw [List.find?_isSome]
      exact ⟨q, hq, by simp [hqc]⟩
    obtain ⟨p, hp⟩ := Option.isSome_iff_exists.mp hsome
    refine ⟨p, hp, ?_⟩
    unfold detectIndustry
    rw [hfst, hcongr, hp]
    rfl

/-- C6 (amended): the roadmap generator and the role suggester run the same
first-maximum selection algorithm, so whenever their (different) indicator
keyword lists produce the same per-industry match counts on the preprocessed
tokens, they select the same industry; with different counts they can
diverge. -/
theorem c6_industry_agreement (env : TextEnv) (text : Str)
    (h : roadmapIndicators.map (fun p => matchCount (preprocessText env text) p.2) =
         rolesIndicators.map (fun p => matchCount (preprocessText env text) p.2)) :
    roadmapIndustry env text = rolesIndustry env text := by
  unfold roadmapIndustry rolesIndustry detectIndustry
  rw [detectFold_congr (preprocessText env text) roadmapIndicators rolesIndicators _ (by decide) h]

/-- C7: salary estimation looks up the fixed band for the tier (falling back
to the Entry band on an unknown tier), scales it by the capped multiplier
`min(1, score/100 + 0.2)`, and therefore never exceeds the band maximum; for
a Senior-classified input the range is the Senior band 125000 to 185000
scaled by that multiplier. -/
theorem c7_salary_estimation (score : Nat) (lvl : Str) (es : Nat) (text : Str) :
    salaryBand (("Entry Level").data) = (45000, 75000) ∧
    salaryBand (("Mid Level").data) = (75000, 125000) ∧
    salaryBand (("Senior Level").data) = (125000, 185000) ∧
    (lvl ∉ [("Entry Level").data, ("Mid Level").data, ("Senior Level").data] →
      salaryBand lvl = (45000, 75000)) ∧
    salaryMultiplier score ≤ 1 ∧
    salaryLow score lvl = natRound (((salaryBand lvl).1 : ℚ) * salaryMultiplier score) ∧
    salaryHigh score lvl = natRound (((salaryBand lvl).2 : ℚ) * salaryMultiplier score) ∧
    salaryHigh score lvl ≤ (salaryBand lvl).2 ∧
    (classifyExperienceLevel es text = ("Senior Level").data →
      salaryLow score (classifyExperienceLevel es text) =
        natRound ((125000 : ℚ) * salaryMultiplier score) ∧
      salaryHigh score (classifyExperienceLevel es text) =
        natRound ((185000 : ℚ) * salaryMultiplier score) ∧
      salaryHigh score (classifyExperienceLevel es text) ≤ 185000) := by
  have hm1 : salaryMultiplier score ≤ 1 := min_le_left _ _
  have hm0 : (0:ℚ) ≤ salaryMultiplier score := by
    refine le_min (by norm_num) ?_
    have : (0:ℚ) ≤ (score : ℚ) := Nat.cast_nonneg _
    have h100 : (0:ℚ) ≤ (score : ℚ) / 100 := by positivity
    linarith
  have hsenior : salaryBand (("Senior Level").data) = (125000, 185000) := by decide
  have hhigh : ∀ l : Str, salaryHigh score l ≤ (salaryBand l).2 := by
    intro l
    unfold salaryHigh
    apply natRound_le_of_le
    calc ((salaryBand l).2 : ℚ) * salaryMultiplier score
        ≤ ((salaryBand l).2 : ℚ) * 1 :=
          mul_le_mul_of_nonneg_left hm1 (Nat.cast_nonneg _)
      _ = ((salaryBand l).2 : ℚ) := mul_one _
  refine ⟨by decide, by decide, hsenior, ?_, hm1, rfl, rfl, hhigh lvl, ?_⟩
  · intro hnot
    have hall : ∀ q ∈ salaryBands, q.1 ∈
        [("Entry Level").data, ("Mid Level").data, ("Senior Level").data] := by decide
    unfold salaryBand lookupD
    rw [List.find?_eq_none.mpr ?_]
    · rfl
    · intro p hp heq
      have hpl : p.1 = lvl := of_decide_eq_true heq
      have hmem := hall p hp
      rw [hpl] at hmem
      exact hnot hmem
  · intro hsen
    rw [hsen]
    refine ⟨?_, ?_, ?_⟩
    · simp only [salaryLow, hsenior]
      norm_num
    · simp only [salaryHigh, hsenior]
      norm_num
    · have := hhigh (("Senior Level").data)
      rw [hsenior] at this
      exact this

/-- C9: preprocessing replaces every character outside the allow-list
(letters, digits, whitespace and the nine listed symbols) with a space, and
inputs containing the tokens c++, c# and node.js keep the plus, hash and dot
characters in the resulting token sequence. -/
theorem c9_char_allowlist_preserved :
    (∀ (text : Str) (i : Nat),
      (charFilter text)[i]? = text[i]?.map (fun c => if isAllowedChar c then c else ' ')) ∧
    includes cppText (("c++").data) = true ∧
    includes cppText (("c#").data) = true ∧
    includes cppText (("node.js").data) = true ∧
    (∃ t ∈ preprocessText specEnv cppText, '+' ∈ t) ∧
    (∃ t ∈ preprocessText specEnv cppText, '#' ∈ t) ∧
    (∃ t ∈ preprocessText specEnv cppText, '.' ∈ t) := by
  refine ⟨?_, by decide, by decide, by decide, by decide, by decide, by decide⟩
  intro text i
  unfold charFilter
  rw [List.getElem?_map]

/-- Witness for C1: a concrete valid input on which the rounded weighted sum
is the reported overall score. -/
theorem c1_witness :
    100 ≤ (jsTrim aText).length ∧
    (analyzeResume specEnv aText).toOption.map (fun r => r.scores.overall) =
      some (natRound (((scoreSections specEnv aText).skills : ℚ) * (25/100) +
        ((scoreSections specEnv aText).experience : ℚ) * (25/100) +
        ((scoreSections specEnv aText).education : ℚ) * (15/100) +
        ((scoreSections specEnv aText).projects : ℚ) * (15/100) +
        ((scoreSections specEnv aText).achievements : ℚ) * (10/100) +
        ((scoreSections specEnv aText).formatting : ℚ) * (10/100))) :=
  ⟨by decide, c1_overall_weighted_sum specEnv aText (by decide)⟩

/-- Witness for C2: a 100-character input is accepted. -/
theorem c2_witness :
    (jsTrim aText).length = 100 ∧ (analyzeResume specEnv aText).isOk = true :=
  ⟨by decide, (c2_validation_behavior specEnv aText).2.2 (by decide)⟩

/-- Counterexample for C2 as stated: the validation error is not surfaced
verbatim — the analysis rethrows it wrapped with the failure prefix. -/
theorem c2_counterexample :
    analyzeResume specEnv [] =
      Except.error (("Failed to analyze resume: Resume content is too short or empty").data) ∧
    (("Failed to analyze resume: Resume content is too short or empty").data ≠
      ("Resume content is too short or empty").data) := by
  exact ⟨rfl, by decide⟩

/-- Witness for C4 (amended): a concrete quantification-free valid input
whose first recommendation flags missing quantified achievements. -/
theorem c4_witness :
    100 ≤ (jsTrim nurseText).length ∧
    (∀ c ∈ nurseText, c.isDigit = false ∧ c ≠ '+' ∧ c ≠ '%' ∧ c ≠ '$') ∧
    (∀ v ∈ quantVerbs, includes (toLowerStr nurseText) v = false) ∧
    ((analyzeResume specEnv nurseText).toOption.map
        (fun r => r.detailedRecommendations.head?) = some (some lacksQuantRec) ∧
      lacksQuantRec.priority = ("High").data) :=
  ⟨by decide, by decide, by decide,
   c4_missing_quantification_rec specEnv nurseText (by decide) (by decide) (by decide)⟩

/-- Counterexample for C4 as stated: a valid input with no digits, percent
signs, dollar signs or quantification verbs, but containing a plus sign,
receives no missing-quantified-achievements recommendation at all. -/
theorem c4_counterexample :
    100 ≤ (jsTrim plusText).length ∧
    (∀ c ∈ plusText, c.isDigit = false ∧ c ≠ '%' ∧ c ≠ '$') ∧
    (∀ v ∈ quantVerbs, includes (toLowerStr plusText) v = false) ∧
    (analyzeResume specEnv plusText).toOption.map
        (fun r => r.detailedRecommendations.any
          (fun rec => decide (rec.problem = ("Resume lacks quantified achievements").data))) =
      some false := by
  exact ⟨by decide, by decide, by decide, by decide⟩

/-- Witness for C5: on a concrete token sequence the first industry with the
maximal indicator count is selected. -/
theorem c5_witness :
    0 < listMax (indCounts [("nurse").data] roadmapIndicators) ∧
    (∃ p, roadmapIndicators.find?
        (fun q => decide (matchCount [("nurse").data] q.2 =
          listMax (indCounts [("nurse").data] roadmapIndicators))) = some p ∧
      detectIndustry roadmapIndicators [("nurse").data] = p.1) :=
  ⟨by decide, (c5_industry_detection roadmapIndicators [("nurse").data]).2.2.2 (by decide)⟩

/-- Witness for C6 (amended): a concrete input on which the two indicator
tables give equal counts and hence the same industry. -/
theorem c6_witness :
    (roadmapIndicators.map (fun p => matchCount (preprocessText specEnv nurseText) p.2) =
      rolesIndicators.map (fun p => matchCount (preprocessText specEnv nurseText) p.2)) ∧
    roadmapIndustry specEnv nurseText = rolesIndustry specEnv nurseText :=
  ⟨by decide, c6_industry_agreement specEnv nurseText (by decide)⟩

/-- Counterexample for C6 as stated: on a valid input mentioning only
python, the roadmap generator detects no industry (general) while the role
suggester, whose extended indicator list contains python, detects
technology. -/
theorem c6_counterexample :
    100 ≤ (jsTrim pyText).length ∧
    roadmapIndustry specEnv pyText = ("general").data ∧
    rolesIndustry specEnv pyText = ("technology").data := by
  exact ⟨by decide, by decide, by decide⟩

/-- Witness for C7: the Entry-band fallback fires on an unknown tier, and a
Senior-classified input is priced within the scaled Senior band. -/
theorem c7_witness :
    ((("Boss").data ∉ [("Entry Level").data, ("Mid Level").data, ("Senior Level").data]) ∧
      salaryBand (("Boss").data) = (45000, 75000)) ∧
    ((classifyExperienceLevel 80 [] = ("Senior Level").data) ∧
      (salaryLow 90 (classifyExperienceLevel 80 []) =
        natRound ((125000 : ℚ) * salaryMultiplier 90) ∧
      salaryHigh 90 (classifyExperienceLevel 80 []) =
        natRound ((185000 : ℚ) * salaryMultiplier 90) ∧
      salaryHigh 90 (classifyExperienceLevel 80 []) ≤ 185000)) := by
  obtain ⟨_, _, _, h4, _, _, _, _, h9⟩ := c7_salary_estimation 90 (("Boss").data) 80 []
  exact ⟨⟨by decide, h4 (by decide)⟩, by decide, h9 (by decide)⟩

end JobList
